import Mathlib

/-!
Verification of the RS274D command interpreter of gerbview
(src/gerbview/rs274d.cpp), shallowly embedded in Lean 4.

Machine integers of the C++ code (wxPoint coordinates, counters) are
modelled as `Int`/`Nat`: the interpreter performs no arithmetic close to
the 32-bit boundary, so overflow is not modelled.  The floating-point
angle helpers `ArcTangente` and `RotatePoint` live in trigo.cpp, outside
the sources under verification; they are abstracted as parameters (an
`TrigExt` record of external collaborators) with angles carried as rationals
in tenths of a degree, exactly the unit the code uses.
-/

/-- A 2-D integer point, as wxPoint is used by rs274d.cpp. -/
structure wxPoint where
  x : Int
  y : Int
deriving DecidableEq, Repr

def wxPoint.add (p q : wxPoint) : wxPoint := ⟨p.x + q.x, p.y + q.y⟩

instance : Add wxPoint := ⟨wxPoint.add⟩

def wxPoint.neg (p : wxPoint) : wxPoint := ⟨-p.x, -p.y⟩

instance : Neg wxPoint := ⟨wxPoint.neg⟩

def wxPoint.sub (p q : wxPoint) : wxPoint := ⟨p.x - q.x, p.y - q.y⟩

instance : Sub wxPoint := ⟨wxPoint.sub⟩

/-- A 2-D integer size (wxSize). -/
structure wxSize where
  x : Int
  y : Int
deriving DecidableEq, Repr

/-- The aperture kinds used by `fillFlashedGBRITEM` (enum APERTURE_T). -/
inductive APERTURE_T
  | APT_CIRCLE
  | APT_RECT
  | APT_OVAL
  | APT_POLYGON
  | APT_MACRO
deriving DecidableEq, Repr

/-- The item shapes assigned in rs274d.cpp (enum Gbr_Basic_Shapes).
`GBR_SEGMENT` is the GERBER_DRAW_ITEM constructor's default, which
`fillLineGBRITEM` leaves in place. -/
inductive GbrBasicShape
  | GBR_SEGMENT
  | GBR_ARC
  | GBR_POLYGON
  | GBR_SPOT_CIRCLE
  | GBR_SPOT_RECT
  | GBR_SPOT_OVAL
  | GBR_SPOT_POLY
  | GBR_SPOT_MACRO
deriving DecidableEq, Repr

/-- Interpolation modes (enum Gerb_Interpolation from gerbview.h; the header
is outside src/, the constructors are the ones rs274d.cpp mentions). -/
inductive GerbInterpolation
  | GERB_INTERPOL_LINEAR_1X
  | GERB_INTERPOL_LINEAR_10X
  | GERB_INTERPOL_LINEAR_01X
  | GERB_INTERPOL_LINEAR_001X
  | GERB_INTERPOL_ARC_NEG
  | GERB_INTERPOL_ARC_POS
deriving DecidableEq, Repr

/-- The fields of a GERBER_DRAW_ITEM that rs274d.cpp reads or writes.
Net-attribute bookkeeping (SetNetAttributes) is owned by external
collaborators and is not modelled.  The polygon outline is the ordered
vertex list of the item's single outline. -/
structure GERBER_DRAW_ITEM where
  m_Shape : GbrBasicShape := .GBR_SEGMENT
  m_Flashed : Bool := false
  m_Size : wxSize := ⟨0, 0⟩
  m_Start : wxPoint := ⟨0, 0⟩
  m_End : wxPoint := ⟨0, 0⟩
  m_ArcCentre : wxPoint := ⟨0, 0⟩
  m_DCode : Int := 0
  m_LayerNegative : Bool := false
  m_Polygon : List wxPoint := []
deriving DecidableEq, Repr

/-- Embedding of fillFlashedGBRITEM (rs274d.cpp lines 103-144). -/
def fillFlashedGBRITEM (item : GERBER_DRAW_ITEM) (aAperture : APERTURE_T)
    (Dcode_index : Int) (aPos : wxPoint) (aSize : wxSize)
    (aLayerNegative : Bool) : GERBER_DRAW_ITEM :=
  let item := { item with m_Size := aSize, m_Start := aPos, m_End := aPos,
                          m_DCode := Dcode_index,
                          m_LayerNegative := aLayerNegative,
                          m_Flashed := true }
  match aAperture with
  | .APT_POLYGON => { item with m_Shape := .GBR_SPOT_POLY }
  | .APT_CIRCLE => { item with m_Shape := .GBR_SPOT_CIRCLE,
                               m_Size := ⟨aSize.x, aSize.x⟩ }
  | .APT_OVAL => { item with m_Shape := .GBR_SPOT_OVAL }
  | .APT_RECT => { item with m_Shape := .GBR_SPOT_RECT }
  | .APT_MACRO => { item with m_Shape := .GBR_SPOT_MACRO }

/-- Embedding of fillLineGBRITEM (rs274d.cpp lines 158-176).
It does not assign m_Shape: the constructed item's shape stays. -/
def fillLineGBRITEM (item : GERBER_DRAW_ITEM) (Dcode_index : Int)
    (aStart aEnd : wxPoint) (aPenSize : wxSize)
    (aLayerNegative : Bool) : GERBER_DRAW_ITEM :=
  { item with m_Flashed := false, m_Size := aPenSize,
              m_Start := aStart, m_End := aEnd,
              m_DCode := Dcode_index, m_LayerNegative := aLayerNegative }

/-- Embedding of fillArcGBRITEM (rs274d.cpp lines 207-304): arc-center
resolution (multiquadrant relative center, or single-quadrant magnitude
with signs inferred from the quadrant of end - start, negated again for
counter-clockwise arcs) followed by the start/end canonicalization. -/
def fillArcGBRITEM (item : GERBER_DRAW_ITEM) (Dcode_index : Int)
    (aStart aEnd aRelCenter : wxPoint) (aPenSize : wxSize)
    (aClockwise aMultiquadrant aLayerNegative : Bool) : GERBER_DRAW_ITEM :=
  let item := { item with m_Shape := .GBR_ARC, m_Size := aPenSize,
                          m_Flashed := false }
  let center : wxPoint :=
    if aMultiquadrant then aStart + aRelCenter
    else
      let delta := aEnd - aStart
      let c : wxPoint :=
        if delta.x ≥ 0 ∧ delta.y ≥ 0 then ⟨-aRelCenter.x, aRelCenter.y⟩
        else if delta.x ≥ 0 ∧ delta.y < 0 then aRelCenter
        else if delta.x < 0 ∧ delta.y ≥ 0 then ⟨-aRelCenter.x, -aRelCenter.y⟩
        else ⟨aRelCenter.x, -aRelCenter.y⟩
      let c := if ¬aClockwise then -c else c
      c + aStart
  let item :=
    if aClockwise then { item with m_Start := aStart, m_End := aEnd }
    else { item with m_Start := aEnd, m_End := aStart }
  { item with m_ArcCentre := center, m_DCode := Dcode_index,
              m_LayerNegative := aLayerNegative }

/-- Modelled from the spec: the floating-point angle helpers of trigo.cpp,
which is outside the verified sources.  `arcTangente dy dx` is the angle of
the vector (dx, dy) in tenths of a degree measured counter-clockwise from
the positive x-axis; `rotatePoint p a` rotates p by the angle a (tenths of
a degree).  Both are abstracted: every theorem below holds for every
choice of these collaborators. -/
structure TrigExt where
  arcTangente : Int → Int → ℚ
  rotatePoint : wxPoint → ℚ → wxPoint

/-- A trivial instantiation of the external collaborators, used to
evaluate the interpreter on concrete inputs. -/
def extTrivial : TrigExt where
  arcTangente := fun _ _ => 0
  rotatePoint := fun p _ => p

/-- The scratch item fillArcPOLY builds through fillArcGBRITEM
(rs274d.cpp lines 343-349) to borrow its geometric parameters. -/
def arcPolyDummy (aStart aEnd rel_center : wxPoint)
    (aClockwise aMultiquadrant : Bool) : GERBER_DRAW_ITEM :=
  fillArcGBRITEM {} 0 aStart aEnd rel_center ⟨0, 0⟩ aClockwise aMultiquadrant false

/-- The fixed tessellation step of fillArcPOLY: 3600 / 36 tenths of a
degree (rs274d.cpp line 378). -/
def increment_angle : ℚ := 3600 / 36

/-- The start angle fillArcPOLY computes: angle of the canonical start
relative to the resolved center (rs274d.cpp line 365). -/
def arcPolyStartAngle (ext : TrigExt) (aStart aEnd rel_center : wxPoint)
    (aClockwise aMultiquadrant : Bool) : ℚ :=
  let d := arcPolyDummy aStart aEnd rel_center aClockwise aMultiquadrant
  let s := d.m_Start - d.m_ArcCentre
  ext.arcTangente s.y s.x

/-- The end angle fillArcPOLY computes, with a full turn (3600 tenths)
added whenever the start angle exceeds it (rs274d.cpp lines 366-374). -/
def arcPolyEndAngle (ext : TrigExt) (aStart aEnd rel_center : wxPoint)
    (aClockwise aMultiquadrant : Bool) : ℚ :=
  let d := arcPolyDummy aStart aEnd rel_center aClockwise aMultiquadrant
  let e := d.m_End - d.m_ArcCentre
  let sa := arcPolyStartAngle ext aStart aEnd rel_center aClockwise aMultiquadrant
  let ea := ext.arcTangente e.y e.x
  if sa > ea then ea + 3600 else ea

/-- The interpolation step count of fillArcPOLY (rs274d.cpp lines
376-379): the arc span over the step angle, with the C double-to-int
conversion truncating toward zero (the quotient is non-negative after
taking the absolute value, so truncation is the floor). -/
def arcPolyStepCount (ext : TrigExt) (aStart aEnd rel_center : wxPoint)
    (aClockwise aMultiquadrant : Bool) : ℕ :=
  let sa := arcPolyStartAngle ext aStart aEnd rel_center aClockwise aMultiquadrant
  let ea := arcPolyEndAngle ext aStart aEnd rel_center aClockwise aMultiquadrant
  (⌊|(sa - ea) / increment_angle|⌋).toNat

/-- The vertex list the fillArcPOLY loop appends to the outline
(rs274d.cpp lines 384-405): for each ii in 0..count, rotate the canonical
relative start by -rot (rot = ii steps for clockwise arcs, count - ii
steps for counter-clockwise ones), except that the last vertex is the
exact canonical endpoint; each vertex is translated back by the center. -/
def fillArcPOLY_vertices (ext : TrigExt) (aStart aEnd rel_center : wxPoint)
    (aClockwise aMultiquadrant : Bool) : List wxPoint :=
  let d := arcPolyDummy aStart aEnd rel_center aClockwise aMultiquadrant
  let center := d.m_ArcCentre
  let start := d.m_Start - center
  let endp := d.m_End - center
  let count := arcPolyStepCount ext aStart aEnd rel_center aClockwise aMultiquadrant
  (List.range (count + 1)).map fun ii =>
    let rev : ℕ := count - ii
    let rot : ℚ := if aClockwise then (ii : ℚ) * increment_angle
                   else (rev : ℚ) * increment_angle
    let end_arc : wxPoint :=
      if ii < count then ext.rotatePoint start (-rot)
      else if aClockwise then endp else start
    end_arc + center

/-- Embedding of fillArcPOLY's effect on the region item (rs274d.cpp
lines 334-406): set the layer polarity and append the tessellated
vertices to the outline (NewOutline on an empty polygon set adds no
vertex, so the list model is unchanged by it). -/
def fillArcPOLY (ext : TrigExt) (item : GERBER_DRAW_ITEM)
    (aStart aEnd rel_center : wxPoint)
    (aClockwise aMultiquadrant aLayerNegative : Bool) : GERBER_DRAW_ITEM :=
  { item with m_LayerNegative := aLayerNegative,
              m_Polygon := item.m_Polygon ++
                fillArcPOLY_vertices ext aStart aEnd rel_center
                  aClockwise aMultiquadrant }

/-- The single-quadrant sign resolution exactly as claimed by the spec:
the quadrant of (end - start) picks the signs of the magnitude pair. -/
def quadrantResolvedCenter (delta : wxPoint) (cx cy : Int) : wxPoint :=
  if delta.x ≥ 0 ∧ delta.y ≥ 0 then ⟨-cx, cy⟩
  else if delta.x ≥ 0 ∧ delta.y < 0 then ⟨cx, cy⟩
  else if delta.x < 0 ∧ delta.y ≥ 0 then ⟨-cx, -cy⟩
  else ⟨cx, -cy⟩

/-- Modelled from the spec: the first D-code value that selects a tool
rather than acting as a pen command (dcode.h, outside src/). -/
def FIRST_DCODE : Int := 10

/-- Modelled from the spec: the number of tool slots; D-codes are clamped
to TOOLS_MAX_COUNT - 1 (dcode.h, outside src/). -/
def TOOLS_MAX_COUNT : Int := 1000

/-- Modelled from the spec: the G-code numbers of gerbview.h (outside
src/), cross-checked against the command table in the leading comment of
rs274d.cpp.  Only their distinctness matters to the dispatcher. -/
def GC_MOVE : Int := 0

def GC_LINEAR_INTERPOL_1X : Int := 1

def GC_CIRCLE_NEG_INTERPOL : Int := 2

def GC_CIRCLE_POS_INTERPOL : Int := 3

def GC_COMMENT : Int := 4

def GC_TURN_ON_POLY_FILL : Int := 36

def GC_TURN_OFF_POLY_FILL : Int := 37

def GC_SELECT_TOOL : Int := 54

def GC_PHOTO_MODE : Int := 55

def GC_SPECIFY_INCHES : Int := 70

def GC_SPECIFY_MILLIMETERS : Int := 71

def GC_TURN_OFF_360_INTERPOL : Int := 74

def GC_TURN_ON_360_INTERPOL : Int := 75

def GC_SPECIFY_ABSOLUES_COORD : Int := 90

def GC_SPECIFY_RELATIVEES_COORD : Int := 91

/-- An aperture table entry (class D_CODE, dcode.h): the fields
rs274d.cpp reads or writes. -/
structure D_CODE where
  m_Num_Dcode : Int := 0
  m_Size : wxSize := ⟨0, 0⟩
  m_Shape : APERTURE_T := .APT_CIRCLE
  m_InUse : Bool := false
deriving DecidableEq, Repr

/-- The interpreter state: the fields of GERBER_FILE_IMAGE that
rs274d.cpp reads or writes, plus a diagnostic-message counter standing
for AddMessageToList and a log of the items handed to the external
StepAndRepeatItem collaborator.  The aperture table (GetDCODE) is a
partial map from tool numbers to entries. -/
structure GERBER_FILE_IMAGE where
  m_Iterpolation : GerbInterpolation := .GERB_INTERPOL_LINEAR_1X
  m_GerbMetric : Bool := false
  m_Relative : Bool := false
  m_360Arc_enbl : Bool := false
  m_PolygonFillMode : Bool := false
  m_PolygonFillModeState : Int := 0
  m_Exposure : Bool := false
  m_LastCoordIsIJPos : Bool := false
  m_LayerNegative : Bool := false
  m_Last_Pen_Command : Int := 0
  m_Current_Tool : Int := 0
  m_CurrentPos : wxPoint := ⟨0, 0⟩
  m_PreviousPos : wxPoint := ⟨0, 0⟩
  m_IJPos : wxPoint := ⟨0, 0⟩
  m_Drawings : List GERBER_DRAW_ITEM := []
  m_Dcodes : Int → Option D_CODE := fun _ => none
  m_Messages : Nat := 0
  m_SRCalls : List GERBER_DRAW_ITEM := []

/-- Replace the last element of a list (the in-place mutation of the item
returned by m_Drawings.GetLast()). -/
def setLast {α : Type} : List α → α → List α
  | [], _ => []
  | [_], b => [b]
  | a :: c :: l, b => a :: setLast (c :: l) b

/-- Closing a region (rs274d.cpp lines 552-557 and 664-669): append a
copy of the first outline vertex to the last item's outline and hand the
closed item to StepAndRepeatItem. -/
def closeLastRegion (s : GERBER_FILE_IMAGE) : GERBER_FILE_IMAGE :=
  let g := s.m_Drawings.getLastD {}
  let g := { g with m_Polygon := g.m_Polygon ++ [g.m_Polygon.headD ⟨0, 0⟩] }
  { s with m_Drawings := setLast s.m_Drawings g,
           m_SRCalls := s.m_SRCalls ++ [g] }

/-- The current tool's pen size, D-code number and aperture shape, or the
local defaults of Execute_DCODE_Command (size (15,15), dcode 0,
APT_CIRCLE) when the aperture table has no entry (rs274d.cpp lines
581-587 and 686-693). -/
def currentToolParams (s : GERBER_FILE_IMAGE) : wxSize × Int × APERTURE_T :=
  match s.m_Dcodes s.m_Current_Tool with
  | some tool => (tool.m_Size, tool.m_Num_Dcode, tool.m_Shape)
  | none => (⟨15, 15⟩, 0, .APT_CIRCLE)

/-- The tool-select clamp (rs274d.cpp lines 510-511 and 592-593). -/
def clampTool (d : Int) : Int :=
  if d > TOOLS_MAX_COUNT - 1 then TOOLS_MAX_COUNT - 1 else d

/-- Mark the aperture for tool `d` in use when present (rs274d.cpp lines
513-515 and 599-601). -/
def markToolInUse (s : GERBER_FILE_IMAGE) (d : Int) : GERBER_FILE_IMAGE :=
  match s.m_Dcodes d with
  | some dc => { s with m_Dcodes := fun i =>
                  if i = d then some { dc with m_InUse := true }
                  else s.m_Dcodes i }
  | none => s

/-- Embedding of GERBER_FILE_IMAGE::Execute_G_Command (rs274d.cpp lines
454-576).  `toolArg` is the number the G54 branch reads from the text
cursor via DCodeNumber; the comment branch only consumes text (its X2
metadata dispatch is an external collaborator), so it leaves the modelled
state unchanged.  Returns the C++ boolean result with the new state. -/
def Execute_G_Command (s : GERBER_FILE_IMAGE) (G_command : Int)
    (toolArg : Int) : Bool × GERBER_FILE_IMAGE :=
  if G_command = GC_PHOTO_MODE then (true, s)
  else if G_command = GC_LINEAR_INTERPOL_1X then
    (true, { s with m_Iterpolation := .GERB_INTERPOL_LINEAR_1X })
  else if G_command = GC_CIRCLE_NEG_INTERPOL then
    (true, { s with m_Iterpolation := .GERB_INTERPOL_ARC_NEG })
  else if G_command = GC_CIRCLE_POS_INTERPOL then
    (true, { s with m_Iterpolation := .GERB_INTERPOL_ARC_POS })
  else if G_command = GC_COMMENT then (true, s)
  else if G_command = GC_SELECT_TOOL then
    if toolArg < FIRST_DCODE then (false, s)
    else
      let d := clampTool toolArg
      (true, markToolInUse { s with m_Current_Tool := d } d)
  else if G_command = GC_SPECIFY_INCHES then
    (true, { s with m_GerbMetric := false })
  else if G_command = GC_SPECIFY_MILLIMETERS then
    (true, { s with m_GerbMetric := true })
  else if G_command = GC_TURN_OFF_360_INTERPOL then
    (true, { s with m_360Arc_enbl := false,
                    m_Iterpolation := .GERB_INTERPOL_LINEAR_1X })
  else if G_command = GC_TURN_ON_360_INTERPOL then
    (true, { s with m_360Arc_enbl := true })
  else if G_command = GC_SPECIFY_ABSOLUES_COORD then
    (true, { s with m_Relative := false })
  else if G_command = GC_SPECIFY_RELATIVEES_COORD then
    (true, { s with m_Relative := true })
  else if G_command = GC_TURN_ON_POLY_FILL then
    (true, { s with m_PolygonFillMode := true, m_Exposure := false })
  else if G_command = GC_TURN_OFF_POLY_FILL then
    (true, { (if s.m_Exposure = true ∧ s.m_Drawings ≠ [] then
                closeLastRegion s
              else s) with
             m_Exposure := false, m_PolygonFillMode := false,
             m_PolygonFillModeState := 0,
             m_Iterpolation := .GERB_INTERPOL_LINEAR_1X })
  else (false, { s with m_Messages := s.m_Messages + 1 })

/-- Tool-select D-command branch (rs274d.cpp lines 590-604): clamp the
code, record it as the current tool, mark the aperture in use when the
table has it, succeed. -/
def dcodeToolSelect (s : GERBER_FILE_IMAGE) (D_commande : Int) :
    Bool × GERBER_FILE_IMAGE :=
  let d := clampTool D_commande
  (true, markToolInUse { s with m_Current_Tool := d } d)

/-- The fresh Region item a pen-down in polygon mode appends when no
region is open (rs274d.cpp lines 618-629). -/
def regionNewItem : GERBER_DRAW_ITEM :=
  { m_Shape := .GBR_POLYGON, m_Flashed := false, m_DCode := 0 }

/-- Region opening (rs274d.cpp lines 615-630): when exposure is off, set
it and append a fresh Region item. -/
def dcodePolyOpen (s : GERBER_FILE_IMAGE) : GERBER_FILE_IMAGE :=
  if s.m_Exposure = false then
    { s with m_Exposure := true,
             m_Drawings := s.m_Drawings ++ [regionNewItem] }
  else s

/-- The outline extension of a polygon pen-down (the interpolation switch
of rs274d.cpp lines 632-657), on the state with the region already
open. -/
def dcodePolyDrawCore (ext : TrigExt) (s : GERBER_FILE_IMAGE) :
    GERBER_FILE_IMAGE :=
  if s.m_Iterpolation = .GERB_INTERPOL_ARC_NEG
     ∨ s.m_Iterpolation = .GERB_INTERPOL_ARC_POS then
    let g := s.m_Drawings.getLastD {}
    let g := fillArcPOLY ext g s.m_PreviousPos s.m_CurrentPos s.m_IJPos
               (if s.m_Iterpolation
                   = GerbInterpolation.GERB_INTERPOL_ARC_NEG then
                  false else true)
               s.m_360Arc_enbl s.m_LayerNegative
    { s with m_Drawings := setLast s.m_Drawings g }
  else
    let g := s.m_Drawings.getLastD {}
    let g := { g with m_Start := s.m_PreviousPos }
    let g := if g.m_Polygon = [] then { g with m_Polygon := [g.m_Start] }
             else g
    let g := { g with m_End := s.m_CurrentPos }
    let g := { g with m_Polygon := g.m_Polygon ++ [g.m_End] }
    { s with m_Drawings := setLast s.m_Drawings g }

/-- Pen code 1 in polygon-fill mode (rs274d.cpp lines 614-661): open a
region when exposure was off, extend the outline by an arc tessellation
or a straight segment, advance the previous position. -/
def dcodePolyDraw (ext : TrigExt) (s : GERBER_FILE_IMAGE) :
    Bool × GERBER_FILE_IMAGE :=
  (true, { dcodePolyDrawCore ext (dcodePolyOpen s) with
           m_PreviousPos := s.m_CurrentPos, m_PolygonFillModeState := 1 })

/-- Pen code 2 in polygon-fill mode (rs274d.cpp lines 663-673): close the
open region, clear exposure, advance the previous position. -/
def dcodePolyMove (s : GERBER_FILE_IMAGE) : Bool × GERBER_FILE_IMAGE :=
  (true, { (if s.m_Exposure = true ∧ s.m_Drawings ≠ [] then
              closeLastRegion s
            else s) with
           m_Exposure := false, m_PreviousPos := s.m_CurrentPos,
           m_PolygonFillModeState := 0 })

/-- The Line item a normal-mode pen-down builds (rs274d.cpp lines
698-704 and 719-723). -/
def dcodeLineItem (s : GERBER_FILE_IMAGE) : GERBER_DRAW_ITEM :=
  fillLineGBRITEM {} (currentToolParams s).2.1 s.m_PreviousPos
    s.m_CurrentPos (currentToolParams s).1 s.m_LayerNegative

/-- The Arc item a normal-mode pen-down builds when a relative center is
pending (rs274d.cpp lines 711-717). -/
def dcodeArcItem (s : GERBER_FILE_IMAGE) : GERBER_DRAW_ITEM :=
  fillArcGBRITEM {} (currentToolParams s).2.1 s.m_PreviousPos
    s.m_CurrentPos s.m_IJPos (currentToolParams s).1
    (if s.m_Iterpolation = .GERB_INTERPOL_ARC_NEG then false else true)
    s.m_360Arc_enbl s.m_LayerNegative

/-- The interpolation switch of a normal-mode pen-down (rs274d.cpp lines
695-734), on the state with exposure already set. -/
def dcodeNormalDrawCore (s : GERBER_FILE_IMAGE) : GERBER_FILE_IMAGE :=
  if s.m_Iterpolation = .GERB_INTERPOL_LINEAR_1X then
    { s with m_Drawings := s.m_Drawings ++ [dcodeLineItem s],
             m_SRCalls := s.m_SRCalls ++ [dcodeLineItem s] }
  else if s.m_Iterpolation = .GERB_INTERPOL_ARC_NEG
          ∨ s.m_Iterpolation = .GERB_INTERPOL_ARC_POS then
    (if s.m_LastCoordIsIJPos = true then
       { s with m_LastCoordIsIJPos := false,
                m_Drawings := s.m_Drawings ++ [dcodeArcItem s],
                m_SRCalls := s.m_SRCalls ++ [dcodeArcItem s] }
     else
       { s with m_Drawings := s.m_Drawings ++ [dcodeLineItem s],
                m_SRCalls := s.m_SRCalls ++ [dcodeLineItem s] })
  else { s with m_Messages := s.m_Messages + 1 }

/-- Pen code 1 in normal mode (rs274d.cpp lines 683-737): set exposure,
look the tool up, build a Line or Arc item per the interpolation mode
(an arc only when a relative-center pair was just parsed, clearing that
marker; otherwise a line, silently), hand it to StepAndRepeatItem, log a
message instead when the interpolation mode is unknown, and advance the
previous position. -/
def dcodeNormalDraw (s : GERBER_FILE_IMAGE) : Bool × GERBER_FILE_IMAGE :=
  (true, { dcodeNormalDrawCore { s with m_Exposure := true } with
           m_PreviousPos := s.m_CurrentPos })

/-- Pen code 2 in normal mode (rs274d.cpp lines 739-742). -/
def dcodeNormalMove (s : GERBER_FILE_IMAGE) : Bool × GERBER_FILE_IMAGE :=
  (true, { s with m_Exposure := false, m_PreviousPos := s.m_CurrentPos })

/-- Pen code 3 in normal mode (rs274d.cpp lines 744-759): flash the
current aperture at the current position. -/
def dcodeNormalFlash (s : GERBER_FILE_IMAGE) : Bool × GERBER_FILE_IMAGE :=
  let p := currentToolParams s
  let g := fillFlashedGBRITEM {} p.2.2 p.2.1 s.m_CurrentPos p.1
             s.m_LayerNegative
  (true, { s with m_Drawings := s.m_Drawings ++ [g],
                  m_SRCalls := s.m_SRCalls ++ [g],
                  m_PreviousPos := s.m_CurrentPos })

/-- Embedding of GERBER_FILE_IMAGE::Execute_DCODE_Command (rs274d.cpp
lines 579-767): tool-select codes are handled first; every pen code is
recorded in m_Last_Pen_Command before the pen dispatch, which fails on
any code the sub-machine does not know. -/
def Execute_DCODE_Command (ext : TrigExt) (s : GERBER_FILE_IMAGE)
    (D_commande : Int) : Bool × GERBER_FILE_IMAGE :=
  if D_commande ≥ FIRST_DCODE then dcodeToolSelect s D_commande
  else
    let s := { s with m_Last_Pen_Command := D_commande }
    if s.m_PolygonFillMode = true then
      if D_commande = 1 then dcodePolyDraw ext s
      else if D_commande = 2 then dcodePolyMove s
      else (false, s)
    else
      if D_commande = 1 then dcodeNormalDraw s
      else if D_commande = 2 then dcodeNormalMove s
      else if D_commande = 3 then dcodeNormalFlash s
      else (false, s)

/-- The G-codes the Execute_G_Command switch names (every other value
falls to the default branch). -/
def recognizedGCode (g : Int) : Prop :=
  g = GC_PHOTO_MODE ∨ g = GC_LINEAR_INTERPOL_1X ∨
  g = GC_CIRCLE_NEG_INTERPOL ∨ g = GC_CIRCLE_POS_INTERPOL ∨
  g = GC_COMMENT ∨ g = GC_SELECT_TOOL ∨ g = GC_SPECIFY_INCHES ∨
  g = GC_SPECIFY_MILLIMETERS ∨ g = GC_TURN_OFF_360_INTERPOL ∨
  g = GC_TURN_ON_360_INTERPOL ∨ g = GC_SPECIFY_ABSOLUES_COORD ∨
  g = GC_SPECIFY_RELATIVEES_COORD ∨ g = GC_TURN_ON_POLY_FILL ∨
  g = GC_TURN_OFF_POLY_FILL

instance (g : Int) : Decidable (recognizedGCode g) := by
  unfold recognizedGCode
  infer_instance

/-- Equality of the interpreter-state fields the atomicity claim
enumerates (positions, interpolation mode, units, addressing, 360-arc,
polygon-fill, exposure, selected tool), together with the item list. -/
def coreStateEq (a b : GERBER_FILE_IMAGE) : Prop :=
  a.m_CurrentPos = b.m_CurrentPos ∧ a.m_PreviousPos = b.m_PreviousPos ∧
  a.m_Iterpolation = b.m_Iterpolation ∧ a.m_GerbMetric = b.m_GerbMetric ∧
  a.m_Relative = b.m_Relative ∧ a.m_360Arc_enbl = b.m_360Arc_enbl ∧
  a.m_PolygonFillMode = b.m_PolygonFillMode ∧ a.m_Exposure = b.m_Exposure ∧
  a.m_Current_Tool = b.m_Current_Tool ∧ a.m_Drawings = b.m_Drawings

/-- A concrete state with an open region of three vertices, used to
evaluate the region-closing paths. -/
def regionOpenState : GERBER_FILE_IMAGE :=
  { m_Exposure := true, m_PolygonFillMode := true,
    m_Drawings := [{ m_Shape := .GBR_POLYGON,
                     m_Polygon := [⟨0, 0⟩, ⟨10, 0⟩, ⟨10, 10⟩] }] }

/-- A concrete normal-mode state in a circular interpolation mode with a
freshly parsed relative arc center. -/
def arcPendingState : GERBER_FILE_IMAGE :=
  { m_Iterpolation := .GERB_INTERPOL_ARC_POS, m_LastCoordIsIJPos := true,
    m_PreviousPos := ⟨0, 0⟩, m_CurrentPos := ⟨10, 0⟩, m_IJPos := ⟨5, 5⟩ }

/-- The same concrete state without a pending arc center. -/
def arcNotPendingState : GERBER_FILE_IMAGE :=
  { m_Iterpolation := .GERB_INTERPOL_ARC_POS, m_LastCoordIsIJPos := false,
    m_PreviousPos := ⟨0, 0⟩, m_CurrentPos := ⟨10, 0⟩, m_IJPos := ⟨5, 5⟩ }

theorem wxPoint.add_def (p q : wxPoint) : p + q = ⟨p.x + q.x, p.y + q.y⟩ := rfl

theorem wxPoint.neg_def (p : wxPoint) : -p = ⟨-p.x, -p.y⟩ := rfl

theorem wxPoint.sub_def (p q : wxPoint) : p - q = ⟨p.x - q.x, p.y - q.y⟩ := rfl

theorem wxPoint.add_comm_pts (p q : wxPoint) : p + q = q + p := by
  simp [wxPoint.add_def, Int.add_comm]

theorem wxPoint.sub_add_cancel_pts (p c : wxPoint) : p - c + c = p := by
  cases p; cases c; simp [wxPoint.sub_def, wxPoint.add_def]

theorem fillArcGBRITEM_mStart (item : GERBER_DRAW_ITEM) (dcode : Int)
    (S E C : wxPoint) (pen : wxSize) (k mq neg : Bool) :
    (fillArcGBRITEM item dcode S E C pen k mq neg).m_Start
      = (if k then S else E) := by
  cases k <;> simp [fillArcGBRITEM]

theorem fillArcGBRITEM_mEnd (item : GERBER_DRAW_ITEM) (dcode : Int)
    (S E C : wxPoint) (pen : wxSize) (k mq neg : Bool) :
    (fillArcGBRITEM item dcode S E C pen k mq neg).m_End
      = (if k then E else S) := by
  cases k <;> simp [fillArcGBRITEM]

theorem markToolInUse_none (s : GERBER_FILE_IMAGE) (d : Int)
    (h : s.m_Dcodes d = none) : markToolInUse s d = s := by
  unfold markToolInUse
  rw [h]

theorem markToolInUse_some (s : GERBER_FILE_IMAGE) (d : Int) (dc : D_CODE)
    (h : s.m_Dcodes d = some dc) :
    markToolInUse s d
      = { s with m_Dcodes := fun i =>
            if i = d then some { dc with m_InUse := true }
            else s.m_Dcodes i } := by
  unfold markToolInUse
  rw [h]

/-- C1: in single-quadrant mode (multiquadrant = false) with non-negative
relative-center magnitudes (cx, cy), the resolved relative center is
(-cx, cy) for dx ≥ 0, dy ≥ 0; (cx, cy) for dx ≥ 0, dy < 0; (-cx, -cy) for
dx < 0, dy ≥ 0; (cx, -cy) for dx < 0, dy < 0, where (dx, dy) = E - S; the
whole vector is negated when the arc is counter-clockwise; and the stored
absolute center m_ArcCentre is S plus the resolved vector. -/
theorem fillArcGBRITEM_single_quadrant_center (item : GERBER_DRAW_ITEM)
    (dcode : Int) (S E : wxPoint) (cx cy : Int) (pen : wxSize)
    (k neg : Bool) (hx : 0 ≤ cx) (hy : 0 ≤ cy) :
    (fillArcGBRITEM item dcode S E ⟨cx, cy⟩ pen k false neg).m_ArcCentre
      = S + (if k then quadrantResolvedCenter (E - S) cx cy
             else -(quadrantResolvedCenter (E - S) cx cy)) := by
  clear hx hy
  simp only [fillArcGBRITEM, quadrantResolvedCenter, Bool.not_eq_true]
  cases k <;> split_ifs <;>
    first
      | rfl
      | exact wxPoint.add_comm_pts _ _
      | simp_all [wxPoint.add, wxPoint.neg, wxPoint.sub, Int.add_comm]

/-- Witness for C1 at a concrete input: S = (0,0), E = (3,4), magnitudes
(1,2), clockwise; quadrant 1, so the stored center is (-1, 2). -/
theorem fillArcGBRITEM_single_quadrant_center_witness :
    (0 : Int) ≤ 1 ∧ (0 : Int) ≤ 2 ∧
    (fillArcGBRITEM {} 0 ⟨0, 0⟩ ⟨3, 4⟩ ⟨1, 2⟩ ⟨0, 0⟩ true false false).m_ArcCentre
      = (⟨0, 0⟩ : wxPoint) + (if true then quadrantResolvedCenter ((⟨3, 4⟩ : wxPoint) - ⟨0, 0⟩) 1 2
             else -(quadrantResolvedCenter ((⟨3, 4⟩ : wxPoint) - ⟨0, 0⟩) 1 2)) :=
  ⟨by decide, by decide,
    fillArcGBRITEM_single_quadrant_center {} 0 ⟨0, 0⟩ ⟨3, 4⟩ 1 2 ⟨0, 0⟩
      true false (by decide) (by decide)⟩

/-- C4 counterexample: for the single-quadrant clockwise arc with start
(0,0), end (10,0) and relative-center magnitude (5,0), the code resolves
quadrant 1 (dx = 10 ≥ 0, dy = 0 ≥ 0), negates the x magnitude, and stores
(-5, 0) — not (5, 0) as the claim states. -/
theorem fillArcGBRITEM_c4_counterexample :
    (fillArcGBRITEM {} 0 ⟨0, 0⟩ ⟨10, 0⟩ ⟨5, 0⟩ ⟨0, 0⟩ true false false).m_ArcCentre
      ≠ (⟨5, 0⟩ : wxPoint) := by decide

/-- C4 amended: for the single-quadrant clockwise arc with start (0,0),
end (10,0), relative-center magnitude (5,0), the resolved absolute center
stored on the item equals (-5, 0), for every incoming item, D-code, pen
size and layer polarity. -/
theorem fillArcGBRITEM_c4_amended (item : GERBER_DRAW_ITEM) (dcode : Int)
    (pen : wxSize) (neg : Bool) :
    (fillArcGBRITEM item dcode ⟨0, 0⟩ ⟨10, 0⟩ ⟨5, 0⟩ pen true false neg).m_ArcCentre
      = (⟨-5, 0⟩ : wxPoint) := by
  norm_num [fillArcGBRITEM, wxPoint.add_def, wxPoint.sub_def]

/-- C6: the arc-center resolver canonicalizes the stored endpoint pair:
clockwise keeps (start, end); counter-clockwise stores (end, start). -/
theorem fillArcGBRITEM_canonical_endpoints (item : GERBER_DRAW_ITEM)
    (dcode : Int) (S E C : wxPoint) (pen : wxSize) (k mq neg : Bool) :
    (fillArcGBRITEM item dcode S E C pen k mq neg).m_Start
        = (if k then S else E)
      ∧ (fillArcGBRITEM item dcode S E C pen k mq neg).m_End
        = (if k then E else S) := by
  cases k <;> simp [fillArcGBRITEM]

/-- C2: the fillArcPOLY loop appends exactly stepcount + 1 vertices,
where the step count is the absolute arc span in tenths of a degree
(after adding a full turn of 3600 tenths to the end angle whenever the
start angle exceeds it) divided by the 100-tenth step, truncated toward
zero; the list is the sweep of rotations of the canonical relative start
with the rotation parameter monotone toward the arc's true end for either
clockwise flag (clockwise: ii steps from 0; counter-clockwise: count - ii
steps down from count, applied to the stored start, which is then the
true end point); and the final appended vertex is exactly the arc's true
end point aEnd rather than the last interpolated rotation step. -/
theorem fillArcPOLY_tessellation (ext : TrigExt) (S E C : wxPoint)
    (cw mq : Bool) :
    fillArcPOLY_vertices ext S E C cw mq
        = ((List.range (arcPolyStepCount ext S E C cw mq)).map fun (ii : Nat) =>
            ext.rotatePoint
              ((arcPolyDummy S E C cw mq).m_Start
                - (arcPolyDummy S E C cw mq).m_ArcCentre)
              (-(if cw then (ii : ℚ) * increment_angle
                 else (Nat.cast (arcPolyStepCount ext S E C cw mq - ii) : ℚ)
                        * increment_angle))
            + (arcPolyDummy S E C cw mq).m_ArcCentre) ++ [E]
    ∧ (fillArcPOLY_vertices ext S E C cw mq).length
        = arcPolyStepCount ext S E C cw mq + 1
    ∧ (fillArcPOLY_vertices ext S E C cw mq).getLast? = some E := by
  have hlast :
      (if cw then (arcPolyDummy S E C cw mq).m_End
                    - (arcPolyDummy S E C cw mq).m_ArcCentre
       else (arcPolyDummy S E C cw mq).m_Start
                    - (arcPolyDummy S E C cw mq).m_ArcCentre)
        + (arcPolyDummy S E C cw mq).m_ArcCentre = E := by
    cases cw <;>
      simp [arcPolyDummy, fillArcGBRITEM_mStart, fillArcGBRITEM_mEnd,
            wxPoint.sub_add_cancel_pts]
  have h : fillArcPOLY_vertices ext S E C cw mq
      = ((List.range (arcPolyStepCount ext S E C cw mq)).map fun (ii : Nat) =>
          ext.rotatePoint
            ((arcPolyDummy S E C cw mq).m_Start
              - (arcPolyDummy S E C cw mq).m_ArcCentre)
            (-(if cw then (ii : ℚ) * increment_angle
               else (Nat.cast (arcPolyStepCount ext S E C cw mq - ii) : ℚ)
                      * increment_angle))
          + (arcPolyDummy S E C cw mq).m_ArcCentre) ++ [E] := by
    simp only [fillArcPOLY_vertices]
    rw [List.range_succ, List.map_append]
    congr 1
    · apply List.map_congr_left
      intro x hx
      have hx' : x < arcPolyStepCount ext S E C cw mq := List.mem_range.mp hx
      simp only [hx', if_true, ite_true, if_pos]
    · simp only [List.map_cons, List.map_nil]
      rw [if_neg (Nat.lt_irrefl _)]
      rw [hlast]
  refine ⟨h, ?_, ?_⟩
  · rw [h]
    simp
  · rw [h, List.getLast?_concat]

/-- C10: the 360-arc disable command (G74) clears the 360-arc flag and
also resets the interpolation mode to linear, so an arc mode selected
before it does not survive; the enable command (G75) sets the flag and
leaves the interpolation mode unchanged. -/
theorem g74_resets_interpolation_g75_keeps (s : GERBER_FILE_IMAGE)
    (targ : Int) :
    ((Execute_G_Command s GC_TURN_OFF_360_INTERPOL targ).1 = true
      ∧ (Execute_G_Command s GC_TURN_OFF_360_INTERPOL targ).2.m_360Arc_enbl
          = false
      ∧ (Execute_G_Command s GC_TURN_OFF_360_INTERPOL targ).2.m_Iterpolation
          = .GERB_INTERPOL_LINEAR_1X)
    ∧ ((Execute_G_Command s GC_TURN_ON_360_INTERPOL targ).1 = true
      ∧ (Execute_G_Command s GC_TURN_ON_360_INTERPOL targ).2.m_360Arc_enbl
          = true
      ∧ (Execute_G_Command s GC_TURN_ON_360_INTERPOL targ).2.m_Iterpolation
          = s.m_Iterpolation) :=
  ⟨⟨rfl, rfl, rfl⟩, ⟨rfl, rfl, rfl⟩⟩

/-- C7: a G-code outside the recognized set returns failure, logs one
diagnostic message, and leaves the whole interpreter state (and the item
list) otherwise unchanged. -/
theorem unknown_gcode_soft_failure (s : GERBER_FILE_IMAGE) (g targ : Int)
    (h : ¬ recognizedGCode g) :
    (Execute_G_Command s g targ).1 = false
    ∧ (Execute_G_Command s g targ).2
        = { s with m_Messages := s.m_Messages + 1 } := by
  unfold recognizedGCode at h
  push_neg at h
  obtain ⟨h1, h2, h3, h4, h5, h6, h7, h8, h9, h10, h11, h12, h13, h14⟩ := h
  unfold Execute_G_Command
  rw [if_neg h1, if_neg h2, if_neg h3, if_neg h4, if_neg h5, if_neg h6,
      if_neg h7, if_neg h8, if_neg h9, if_neg h10, if_neg h11, if_neg h12,
      if_neg h13, if_neg h14]
  exact ⟨rfl, rfl⟩

/-- Witness for C7 at the concrete unknown G-code 5 on the initial
state. -/
theorem unknown_gcode_soft_failure_witness :
    ¬ recognizedGCode 5
    ∧ ((Execute_G_Command {} 5 0).1 = false
       ∧ (Execute_G_Command {} 5 0).2
           = { ({} : GERBER_FILE_IMAGE) with
               m_Messages := ({} : GERBER_FILE_IMAGE).m_Messages + 1 }) :=
  ⟨by decide, unknown_gcode_soft_failure {} 5 0 (by decide)⟩

/-- C8: every D-command with code at least FIRST_DCODE is a tool select:
it succeeds, records the clamped code as the current tool, creates no
draw item, marks the aperture in use when the table has one at the
clamped slot, and changes nothing but the current tool when the table
has none. -/
theorem dcode_tool_select (ext : TrigExt) (s : GERBER_FILE_IMAGE)
    (d : Int) (h : d ≥ FIRST_DCODE) :
    (Execute_DCODE_Command ext s d).1 = true
    ∧ (Execute_DCODE_Command ext s d).2.m_Current_Tool = clampTool d
    ∧ (Execute_DCODE_Command ext s d).2.m_Drawings = s.m_Drawings
    ∧ (∀ tool, s.m_Dcodes (clampTool d) = some tool →
        (Execute_DCODE_Command ext s d).2.m_Dcodes (clampTool d)
          = some { tool with m_InUse := true })
    ∧ (s.m_Dcodes (clampTool d) = none →
        (Execute_DCODE_Command ext s d).2
          = { s with m_Current_Tool := clampTool d }) := by
  have hred : Execute_DCODE_Command ext s d = dcodeToolSelect s d := by
    unfold Execute_DCODE_Command
    rw [if_pos h]
  cases hdc : s.m_Dcodes (clampTool d) with
  | none =>
    have hfull : Execute_DCODE_Command ext s d
        = (true, { s with m_Current_Tool := clampTool d }) := by
      rw [hred]
      show (true, markToolInUse { s with m_Current_Tool := clampTool d }
                    (clampTool d)) = _
      rw [markToolInUse_none { s with m_Current_Tool := clampTool d }
            (clampTool d) hdc]
    rw [hfull]
    exact ⟨rfl, rfl, rfl, fun tool htool => Option.noConfusion htool,
           fun _ => rfl⟩
  | some dc =>
    have hfull : Execute_DCODE_Command ext s d
        = (true, { s with m_Current_Tool := clampTool d,
                          m_Dcodes := fun i =>
                            if i = clampTool d then
                              some { dc with m_InUse := true }
                            else s.m_Dcodes i }) := by
      rw [hred]
      show (true, markToolInUse { s with m_Current_Tool := clampTool d }
                    (clampTool d)) = _
      rw [markToolInUse_some { s with m_Current_Tool := clampTool d }
            (clampTool d) dc hdc]
    rw [hfull]
    refine ⟨rfl, rfl, rfl, fun tool htool => ?_, fun hnone => ?_⟩
    · injection htool with htool
      subst htool
      simp
    · cases hnone

/-- Witness for C8: tool table holding slot 12, selected by D2000 (which
clamps to 999, an empty slot) and by D12 (which marks slot 12 in use). -/
theorem dcode_tool_select_witness :
    (12 : Int) ≥ FIRST_DCODE
    ∧ (Execute_DCODE_Command extTrivial
        { m_Dcodes := fun i => if i = 12 then some { m_Num_Dcode := 12 }
                               else none } 12).2.m_Dcodes (clampTool 12)
        = some { ({ m_Num_Dcode := 12 } : D_CODE) with m_InUse := true } :=
  ⟨by decide,
   (dcode_tool_select extTrivial
      { m_Dcodes := fun i => if i = 12 then some { m_Num_Dcode := 12 }
                             else none } 12 (by decide)).2.2.2.1
     { m_Num_Dcode := 12 } (by norm_num [clampTool, TOOLS_MAX_COUNT])⟩

theorem dcodeToolSelect_fst (s : GERBER_FILE_IMAGE) (d : Int) :
    (dcodeToolSelect s d).1 = true := rfl

theorem dcodePolyDraw_fst (ext : TrigExt) (s : GERBER_FILE_IMAGE) :
    (dcodePolyDraw ext s).1 = true := rfl

theorem dcodePolyMove_fst (s : GERBER_FILE_IMAGE) :
    (dcodePolyMove s).1 = true := rfl

theorem dcodeNormalDraw_fst (s : GERBER_FILE_IMAGE) :
    (dcodeNormalDraw s).1 = true := rfl

theorem dcodeNormalMove_fst (s : GERBER_FILE_IMAGE) :
    (dcodeNormalMove s).1 = true := rfl

theorem dcodeNormalFlash_fst (s : GERBER_FILE_IMAGE) :
    (dcodeNormalFlash s).1 = true := rfl

/-- C5 counterexample: the pen command D4 on a state whose last pen
command was 1 returns failure yet records 4 in m_Last_Pen_Command — a
failing D-command does mutate interpreter state the claim lists. -/
theorem dcode_failure_mutates_last_pen :
    (Execute_DCODE_Command extTrivial { m_Last_Pen_Command := 1 } 4).1 = false
    ∧ (Execute_DCODE_Command extTrivial
        { m_Last_Pen_Command := 1 } 4).2.m_Last_Pen_Command
        ≠ ({ m_Last_Pen_Command := 1 } : GERBER_FILE_IMAGE).m_Last_Pen_Command :=
  ⟨rfl, by decide⟩

/-- C5 amended: a failing G-command leaves every state field the claim
lists (and the item list) unchanged; a failing D-command leaves all of
them unchanged except m_Last_Pen_Command, which is set to the failing
pen code before the pen dispatch validates it, and creates no item. -/
theorem command_failure_frame (ext : TrigExt) (s : GERBER_FILE_IMAGE)
    (g targ d : Int) :
    ((Execute_G_Command s g targ).1 = false →
      (coreStateEq (Execute_G_Command s g targ).2 s
       ∧ (Execute_G_Command s g targ).2.m_Last_Pen_Command
           = s.m_Last_Pen_Command))
    ∧ ((Execute_DCODE_Command ext s d).1 = false →
      (coreStateEq (Execute_DCODE_Command ext s d).2 s
       ∧ (Execute_DCODE_Command ext s d).2.m_Last_Pen_Command = d)) := by
  constructor
  · intro hfail
    by_cases hg : recognizedGCode g
    · rcases hg with h | h | h | h | h | h | h | h | h | h | h | h | h | h <;>
        subst h <;>
        first
          | exact Bool.noConfusion hfail
          | · have h54 : Execute_G_Command s GC_SELECT_TOOL targ
                  = if targ < FIRST_DCODE then (false, s)
                    else (true, markToolInUse
                           { s with m_Current_Tool := clampTool targ }
                           (clampTool targ)) := rfl
              rw [h54] at hfail ⊢
              rcases lt_or_ge targ FIRST_DCODE with ht | ht
              · rw [if_pos ht] at hfail ⊢
                exact ⟨by simp [coreStateEq], rfl⟩
              · rw [if_neg (not_lt.mpr ht)] at hfail
                exact Bool.noConfusion hfail
    · have hdef : Execute_G_Command s g targ
          = (false, { s with m_Messages := s.m_Messages + 1 }) := by
        unfold recognizedGCode at hg
        push_neg at hg
        obtain ⟨h1, h2, h3, h4, h5, h6, h7, h8, h9, h10, h11, h12, h13,
                h14⟩ := hg
        unfold Execute_G_Command
        rw [if_neg h1, if_neg h2, if_neg h3, if_neg h4, if_neg h5,
            if_neg h6, if_neg h7, if_neg h8, if_neg h9, if_neg h10,
            if_neg h11, if_neg h12, if_neg h13, if_neg h14]
      rw [hdef]
      exact ⟨by simp [coreStateEq], rfl⟩
  · intro hfail
    by_cases hge : d ≥ FIRST_DCODE
    · have hts : Execute_DCODE_Command ext s d = dcodeToolSelect s d := by
        unfold Execute_DCODE_Command
        rw [if_pos hge]
      rw [hts] at hfail
      exact Bool.noConfusion hfail
    · have hch : Execute_DCODE_Command ext s d
          = if ({ s with m_Last_Pen_Command := d }
                  : GERBER_FILE_IMAGE).m_PolygonFillMode = true then
              (if d = 1 then
                 dcodePolyDraw ext { s with m_Last_Pen_Command := d }
               else if d = 2 then
                 dcodePolyMove { s with m_Last_Pen_Command := d }
               else (false, { s with m_Last_Pen_Command := d }))
            else
              (if d = 1 then
                 dcodeNormalDraw { s with m_Last_Pen_Command := d }
               else if d = 2 then
                 dcodeNormalMove { s with m_Last_Pen_Command := d }
               else if d = 3 then
                 dcodeNormalFlash { s with m_Last_Pen_Command := d }
               else (false, { s with m_Last_Pen_Command := d })) := by
        unfold Execute_DCODE_Command
        rw [if_neg hge]
      rw [hch] at hfail ⊢
      split_ifs at hfail ⊢ <;>
        first
          | exact Bool.noConfusion hfail
          | exact ⟨by simp [coreStateEq], rfl⟩

/-- Witness for C5's amended statement: the failing D4 on a concrete
state keeps the listed fields and stores 4 as the last pen command, and
the failing G5 changes nothing. -/
theorem command_failure_frame_witness :
    (coreStateEq (Execute_G_Command { m_Last_Pen_Command := 1 } 5 0).2
        { m_Last_Pen_Command := 1 }
     ∧ (Execute_G_Command { m_Last_Pen_Command := 1 } 5 0).2.m_Last_Pen_Command
         = ({ m_Last_Pen_Command := 1 } : GERBER_FILE_IMAGE).m_Last_Pen_Command)
    ∧ (coreStateEq (Execute_DCODE_Command extTrivial
          { m_Last_Pen_Command := 1 } 4).2 { m_Last_Pen_Command := 1 }
       ∧ (Execute_DCODE_Command extTrivial
           { m_Last_Pen_Command := 1 } 4).2.m_Last_Pen_Command = 4) :=
  ⟨(command_failure_frame extTrivial { m_Last_Pen_Command := 1 } 5 0 4).1
     (by decide),
   (command_failure_frame extTrivial { m_Last_Pen_Command := 1 } 5 0 4).2
     (by decide)⟩

theorem getLastD_cons_any {α : Type} (a d : α) (l : List α) :
    (a :: l).getLastD d = l.getLastD a := by
  cases l <;> rfl

theorem getLastD_setLast {α : Type} (l : List α) (b : α) (h : l ≠ [])
    (d : α) : (setLast l b).getLastD d = b := by
  induction l generalizing d with
  | nil => exact absurd rfl h
  | cons a t ih =>
    cases t with
    | nil => rfl
    | cons c r =>
      show (a :: setLast (c :: r) b).getLastD d = b
      rw [getLastD_cons_any]
      exact ih (by simp) a

theorem closeLastRegion_drawings (s : GERBER_FILE_IMAGE)
    (hne : s.m_Drawings ≠ []) :
    (closeLastRegion s).m_Drawings.getLastD {}
      = { s.m_Drawings.getLastD {} with
          m_Polygon := (s.m_Drawings.getLastD {}).m_Polygon
            ++ [(s.m_Drawings.getLastD {}).m_Polygon.headD ⟨0, 0⟩] } := by
  show (setLast s.m_Drawings
          { s.m_Drawings.getLastD {} with
            m_Polygon := (s.m_Drawings.getLastD {}).m_Polygon
              ++ [(s.m_Drawings.getLastD {}).m_Polygon.headD ⟨0, 0⟩] }
       ).getLastD {} = _
  exact getLastD_setLast s.m_Drawings _ hne {}

theorem head_eq_last_after_close {p : List wxPoint} (hp : p ≠ []) :
    (p ++ [p.headD ⟨0, 0⟩]).head? = (p ++ [p.headD ⟨0, 0⟩]).getLast? := by
  cases p with
  | nil => exact absurd rfl hp
  | cons a t =>
    rw [List.getLast?_concat]
    simp

/-- C3: both region-closing paths — the exit-polygon-fill G-command
while exposure is on, and pen code 2 in polygon-fill mode while a region
is open — append a copy of the outline's first vertex at the end of the
last item's outline, so afterwards the outline's first vertex equals its
last vertex. -/
theorem region_close_head_eq_last (ext : TrigExt)
    (s : GERBER_FILE_IMAGE) (targ : Int) (hexp : s.m_Exposure = true)
    (hne : s.m_Drawings ≠ [])
    (hpoly : (s.m_Drawings.getLastD {}).m_Polygon ≠ []) :
    (((Execute_G_Command s GC_TURN_OFF_POLY_FILL targ).2.m_Drawings.getLastD
        {}).m_Polygon
      = (s.m_Drawings.getLastD {}).m_Polygon
          ++ [(s.m_Drawings.getLastD {}).m_Polygon.headD ⟨0, 0⟩]
     ∧ ((Execute_G_Command s GC_TURN_OFF_POLY_FILL
          targ).2.m_Drawings.getLastD {}).m_Polygon.head?
      = ((Execute_G_Command s GC_TURN_OFF_POLY_FILL
          targ).2.m_Drawings.getLastD {}).m_Polygon.getLast?)
    ∧ (s.m_PolygonFillMode = true →
      (((Execute_DCODE_Command ext s 2).2.m_Drawings.getLastD {}).m_Polygon
          = (s.m_Drawings.getLastD {}).m_Polygon
              ++ [(s.m_Drawings.getLastD {}).m_Polygon.headD ⟨0, 0⟩]
       ∧ ((Execute_DCODE_Command ext s 2).2.m_Drawings.getLastD
            {}).m_Polygon.head?
          = ((Execute_DCODE_Command ext s 2).2.m_Drawings.getLastD
            {}).m_Polygon.getLast?)) := by
  have hGlast : (Execute_G_Command s GC_TURN_OFF_POLY_FILL
        targ).2.m_Drawings.getLastD {}
      = { s.m_Drawings.getLastD {} with
          m_Polygon := (s.m_Drawings.getLastD {}).m_Polygon
            ++ [(s.m_Drawings.getLastD {}).m_Polygon.headD ⟨0, 0⟩] } := by
    show (if s.m_Exposure = true ∧ s.m_Drawings ≠ [] then closeLastRegion s
          else s).m_Drawings.getLastD {} = _
    rw [if_pos ⟨hexp, hne⟩]
    exact closeLastRegion_drawings s hne
  refine ⟨⟨?_, ?_⟩, fun hpf => ?_⟩
  · rw [hGlast]
  · rw [hGlast]
    exact head_eq_last_after_close hpoly
  · have hch : Execute_DCODE_Command ext s 2
        = dcodePolyMove { s with m_Last_Pen_Command := 2 } := by
      unfold Execute_DCODE_Command
      rw [if_neg (show ¬((2 : Int) ≥ FIRST_DCODE) from by
            norm_num [FIRST_DCODE])]
      show (if ({ s with m_Last_Pen_Command := (2 : Int) }
                  : GERBER_FILE_IMAGE).m_PolygonFillMode = true then _
            else _) = _
      rw [if_pos (show ({ s with m_Last_Pen_Command := (2 : Int) }
                  : GERBER_FILE_IMAGE).m_PolygonFillMode = true from hpf)]
      rfl
    have hDlast : (Execute_DCODE_Command ext s 2).2.m_Drawings.getLastD {}
        = { s.m_Drawings.getLastD {} with
            m_Polygon := (s.m_Drawings.getLastD {}).m_Polygon
              ++ [(s.m_Drawings.getLastD {}).m_Polygon.headD ⟨0, 0⟩] } := by
      rw [hch]
      show (if ({ s with m_Last_Pen_Command := (2 : Int) }
                  : GERBER_FILE_IMAGE).m_Exposure = true
               ∧ ({ s with m_Last_Pen_Command := (2 : Int) }
                  : GERBER_FILE_IMAGE).m_Drawings ≠ [] then
              closeLastRegion { s with m_Last_Pen_Command := 2 }
            else { s with m_Last_Pen_Command := 2 }
           ).m_Drawings.getLastD {} = _
      rw [if_pos ⟨(show ({ s with m_Last_Pen_Command := (2 : Int) }
                  : GERBER_FILE_IMAGE).m_Exposure = true from hexp),
                  (show ({ s with m_Last_Pen_Command := (2 : Int) }
                  : GERBER_FILE_IMAGE).m_Drawings ≠ [] from hne)⟩]
      exact closeLastRegion_drawings { s with m_Last_Pen_Command := 2 } hne
    exact ⟨by rw [hDlast], by rw [hDlast]; exact head_eq_last_after_close hpoly⟩

/-- Witness for C3 at a concrete open region with outline
[(0,0), (10,0), (10,10)], closed both by G37 and by D2. -/
theorem region_close_head_eq_last_witness :
    (((Execute_G_Command regionOpenState GC_TURN_OFF_POLY_FILL
        0).2.m_Drawings.getLastD {}).m_Polygon.head?
      = ((Execute_G_Command regionOpenState GC_TURN_OFF_POLY_FILL
        0).2.m_Drawings.getLastD {}).m_Polygon.getLast?)
    ∧ (((Execute_DCODE_Command extTrivial regionOpenState
        2).2.m_Drawings.getLastD {}).m_Polygon.head?
      = ((Execute_DCODE_Command extTrivial regionOpenState
        2).2.m_Drawings.getLastD {}).m_Polygon.getLast?) :=
  ⟨(region_close_head_eq_last extTrivial regionOpenState 0 (by decide)
      (by decide) (by decide)).1.2,
   ((region_close_head_eq_last extTrivial regionOpenState 0 (by decide)
      (by decide) (by decide)).2 (by decide)).2⟩

theorem fillArcGBRITEM_mShape (item : GERBER_DRAW_ITEM) (dcode : Int)
    (S E C : wxPoint) (pen : wxSize) (k mq neg : Bool) :
    (fillArcGBRITEM item dcode S E C pen k mq neg).m_Shape = .GBR_ARC := by
  cases k <;> simp [fillArcGBRITEM]

theorem dcodeArcItem_mShape (s : GERBER_FILE_IMAGE) :
    (dcodeArcItem s).m_Shape = .GBR_ARC :=
  fillArcGBRITEM_mShape _ _ _ _ _ _ _ _ _

theorem dcodeNormalDrawCore_arc_pending (s : GERBER_FILE_IMAGE)
    (harc : s.m_Iterpolation = .GERB_INTERPOL_ARC_NEG
            ∨ s.m_Iterpolation = .GERB_INTERPOL_ARC_POS)
    (hij : s.m_LastCoordIsIJPos = true) :
    dcodeNormalDrawCore s
      = { s with m_LastCoordIsIJPos := false,
                 m_Drawings := s.m_Drawings ++ [dcodeArcItem s],
                 m_SRCalls := s.m_SRCalls ++ [dcodeArcItem s] } := by
  unfold dcodeNormalDrawCore
  rw [if_neg (show ¬(s.m_Iterpolation = .GERB_INTERPOL_LINEAR_1X) from by
        rcases harc with h | h <;> rw [h] <;> simp),
      if_pos harc, if_pos hij]

theorem dcodeNormalDrawCore_arc_degraded (s : GERBER_FILE_IMAGE)
    (harc : s.m_Iterpolation = .GERB_INTERPOL_ARC_NEG
            ∨ s.m_Iterpolation = .GERB_INTERPOL_ARC_POS)
    (hij : s.m_LastCoordIsIJPos = false) :
    dcodeNormalDrawCore s
      = { s with m_Drawings := s.m_Drawings ++ [dcodeLineItem s],
                 m_SRCalls := s.m_SRCalls ++ [dcodeLineItem s] } := by
  unfold dcodeNormalDrawCore
  rw [if_neg (show ¬(s.m_Iterpolation = .GERB_INTERPOL_LINEAR_1X) from by
        rcases harc with h | h <;> rw [h] <;> simp),
      if_pos harc, if_neg (show ¬(s.m_LastCoordIsIJPos = true) from by
        rw [hij]; simp)]

/-- C9: a pen code 1 D-command in normal (non-polygon) mode while the
interpolation mode is an arc mode succeeds; when a relative-center
vector is pending it appends an Arc item (shape GBR_ARC) and clears the
pending-center marker; when none is pending it appends a Line item
instead with no diagnostic message; in both cases the item is handed to
StepAndRepeatItem and the previous position advances to the current
position. -/
theorem normal_draw_arc_mode (ext : TrigExt) (s : GERBER_FILE_IMAGE)
    (hpf : s.m_PolygonFillMode = false)
    (harc : s.m_Iterpolation = .GERB_INTERPOL_ARC_NEG
            ∨ s.m_Iterpolation = .GERB_INTERPOL_ARC_POS) :
    (Execute_DCODE_Command ext s 1).1 = true
    ∧ (s.m_LastCoordIsIJPos = true →
        (Execute_DCODE_Command ext s 1).2.m_Drawings
            = s.m_Drawings ++ [dcodeArcItem s]
        ∧ (Execute_DCODE_Command ext s 1).2.m_SRCalls
            = s.m_SRCalls ++ [dcodeArcItem s]
        ∧ (dcodeArcItem s).m_Shape = .GBR_ARC
        ∧ (Execute_DCODE_Command ext s 1).2.m_LastCoordIsIJPos = false)
    ∧ (s.m_LastCoordIsIJPos = false →
        (Execute_DCODE_Command ext s 1).2.m_Drawings
            = s.m_Drawings ++ [dcodeLineItem s]
        ∧ (Execute_DCODE_Command ext s 1).2.m_SRCalls
            = s.m_SRCalls ++ [dcodeLineItem s]
        ∧ (Execute_DCODE_Command ext s 1).2.m_Messages = s.m_Messages)
    ∧ (Execute_DCODE_Command ext s 1).2.m_PreviousPos
        = s.m_CurrentPos := by
  have h1 : Execute_DCODE_Command ext s 1
      = dcodeNormalDraw { s with m_Last_Pen_Command := 1 } := by
    unfold Execute_DCODE_Command
    rw [if_neg (show ¬((1 : Int) ≥ FIRST_DCODE) from by
          norm_num [FIRST_DCODE])]
    show (if ({ s with m_Last_Pen_Command := (1 : Int) }
              : GERBER_FILE_IMAGE).m_PolygonFillMode = true then _
          else _) = _
    rw [if_neg (show ¬(({ s with m_Last_Pen_Command := (1 : Int) }
              : GERBER_FILE_IMAGE).m_PolygonFillMode = true) from by
          show ¬(s.m_PolygonFillMode = true)
          rw [hpf]
          simp)]
    rfl
  have h2 : dcodeNormalDraw { s with m_Last_Pen_Command := 1 }
      = (true, { dcodeNormalDrawCore
                   { s with m_Last_Pen_Command := 1, m_Exposure := true }
                 with m_PreviousPos := s.m_CurrentPos }) := rfl
  refine ⟨by rw [h1, h2], fun hij => ?_, fun hij => ?_,
          by rw [h1, h2]⟩
  · have h3 := dcodeNormalDrawCore_arc_pending
      { s with m_Last_Pen_Command := 1, m_Exposure := true } harc hij
    refine ⟨?_, ?_, dcodeArcItem_mShape s, ?_⟩ <;> (rw [h1, h2, h3]; try rfl)
  · have h3 := dcodeNormalDrawCore_arc_degraded
      { s with m_Last_Pen_Command := 1, m_Exposure := true } harc hij
    refine ⟨?_, ?_, ?_⟩ <;> (rw [h1, h2, h3]; try rfl)

/-- Witness for C9 on the two concrete arc-mode states: D1 with a
pending center appends the Arc item and clears the marker; without a
pending center it appends the Line item. -/
theorem normal_draw_arc_mode_witness :
    ((Execute_DCODE_Command extTrivial arcPendingState 1).2.m_Drawings
        = arcPendingState.m_Drawings ++ [dcodeArcItem arcPendingState]
     ∧ (Execute_DCODE_Command extTrivial
          arcPendingState 1).2.m_LastCoordIsIJPos = false)
    ∧ (Execute_DCODE_Command extTrivial arcNotPendingState 1).2.m_Drawings
        = arcNotPendingState.m_Drawings
            ++ [dcodeLineItem arcNotPendingState] :=
  ⟨⟨((normal_draw_arc_mode extTrivial arcPendingState (by decide)
        (by decide)).2.1 (by decide)).1,
    ((normal_draw_arc_mode extTrivial arcPendingState (by decide)
        (by decide)).2.1 (by decide)).2.2.2⟩,
   ((normal_draw_arc_mode extTrivial arcNotPendingState (by decide)
        (by decide)).2.2.1 (by decide)).1⟩
